import Mathlib

/-!
Verification development for the finhub compliance backend.

This file gives a shallow embedding, in Lean 4, of the parts of the
backend that the specification's claims are about:

* `backend/app/utils/chunking.py` — the `ComplianceChunker` that turns a
  processed document's element list into vector-store chunks;
* `backend/app/services/compliance_engine.py` — the five-phase
  `ComplianceEngine` (document decomposition, query planning, iterative
  retrieval with deduplication, chain-of-thought assessment, synthesis);
* the relevant pieces of `backend/app/services/llm_service.py` and
  `backend/app/models/compliance.py`.

Modelling conventions:

* Python floats are modelled as rationals (`ℚ`); `round(x, k)` is
  modelled by `pyRound` below (round-half-to-even, as in Python).
* Python strings are Lean `String`s; the string methods the code uses
  (`strip`, `upper`, `lower`, slicing, `startswith`, `in`) are modelled
  on the underlying character list (`pyStrip`, `pyUpper`, `pyLower`,
  `pyTake`/`pyDrop`, `pyStartsWith`, `strContains` below).
* External collaborators (MongoDB, ChromaDB, the embedding service, the
  LLM provider, `hashlib.md5`, `uuid.uuid4`) are modelled as explicit
  parameters/oracles carried in an environment record: each oracle value
  stands for the (already-completed) outcome of the corresponding
  external call, including its failure cases.
* Fallible code is modelled with `Option`/`Except`.
-/

namespace FinHub

/-! ### Data model (`backend/app/models/compliance.py`) -/

/-- Possible compliance verdicts for a single rule check
(`ComplianceStatus` in `models/compliance.py`). -/
inductive ComplianceStatus
  | COMPLIANT
  | NON_COMPLIANT
  | PARTIALLY_COMPLIANT
  | NOT_APPLICABLE
  | UNABLE_TO_DETERMINE
deriving DecidableEq, Repr

/-- Result of checking a document against one regulatory rule
(`ComplianceCheckResult` in `models/compliance.py`). -/
structure ComplianceCheckResult where
  rule_id : String
  rule_text : String
  rule_source : String
  framework : String
  status : ComplianceStatus
  confidence : ℚ
  evidence : String
  evidence_location : String
  explanation : String
  recommendations : Option String
deriving DecidableEq, Repr

/-- Full compliance validation report for a document (`ComplianceReport`
in `models/compliance.py`).  The wall-clock fields `generated_at` and
`processing_time` are time-dependent and are omitted from the pure
model. -/
structure ComplianceReport where
  report_id : String
  document_id : String
  document_name : String
  company_name : Option String
  fiscal_year : Option String
  frameworks_tested : List String
  total_rules_checked : Nat
  compliant_count : Nat
  non_compliant_count : Nat
  partially_compliant_count : Nat
  not_applicable_count : Nat
  unable_to_determine_count : Nat
  overall_compliance_score : ℚ
  results : List ComplianceCheckResult
  summary : String
deriving DecidableEq, Repr

/-! ### Python `round` on rationals

`round(x, k)` in Python rounds to `k` decimal digits with ties going to
the nearest even multiple (banker's rounding).  We model it exactly on
rationals. -/

/-- Round a rational to the nearest integer with ties going to the
nearest even integer (the rounding mode of Python's `round`). -/
def pyRoundInt (y : ℚ) : ℤ :=
  if y - ⌊y⌋ < 1 / 2 then ⌊y⌋
  else if 1 / 2 < y - ⌊y⌋ then ⌊y⌋ + 1
  else if ⌊y⌋ % 2 = 0 then ⌊y⌋ else ⌊y⌋ + 1

/-- Python's `round(x, k)` on the rational model of a float: round
`10^k * x` to the nearest integer, ties to even, then divide back. -/
def pyRound (k : Nat) (x : ℚ) : ℚ :=
  (pyRoundInt ((10 ^ k : ℚ) * x) : ℚ) / (10 ^ k : ℚ)

/-! ### Python string primitives

The Python string methods used by the engine, modelled on the character
list underlying a `String` (for the ASCII range, which is all the code
relies on). -/

/-- Whitespace as stripped by `str.strip()` and matched by the regex
class `\s` (ASCII range). -/
def isPyWs (c : Char) : Bool :=
  c = ' ' || c = '\t' || c = '\n' || c = '\r' || c = '\x0b' || c = '\x0c'

/-- Python `str.strip()`. -/
def pyStrip (s : String) : String :=
  String.mk (((s.toList.dropWhile isPyWs).reverse.dropWhile isPyWs).reverse)

/-- Python `str.upper()` (ASCII range). -/
def pyUpper (s : String) : String :=
  String.mk (s.toList.map Char.toUpper)

/-- Python `str.lower()` (ASCII range). -/
def pyLower (s : String) : String :=
  String.mk (s.toList.map Char.toLower)

/-- Python slicing `s[:n]`. -/
def pyTake (s : String) (n : Nat) : String :=
  String.mk (s.toList.take n)

/-- Python slicing `s[n:]`. -/
def pyDrop (s : String) (n : Nat) : String :=
  String.mk (s.toList.drop n)

/-- Python `str.startswith(p)`. -/
def pyStartsWith (s p : String) : Bool :=
  p.toList.isPrefixOf s.toList

/-! ### Chunking (`backend/app/utils/chunking.py`) -/

/-- A single structural element extracted from a document
(`ProcessedElement` in `models/document.py`; only the fields read by the
chunker are modelled — `metadata`, `financial_data` and
`source_document` are never consulted by `chunk_processed_document`). -/
structure ProcessedElement where
  element_id : String
  element_type : String
  text : String
  html : Option String
  page_number : Nat
deriving DecidableEq, Repr

/-- Full output of the document-processing pipeline (`ProcessedDocument`
in `models/document.py`; only the fields read by the chunker are
modelled). -/
structure ProcessedDocument where
  document_id : String
  filename : String
  elements : List ProcessedElement
deriving DecidableEq, Repr

/-- Flat chunk metadata.  The Python code builds an open dict; the
chunker only ever writes these keys, with `has_table` / `table_html`
present only on table chunks and `chunk_index` only on sub-chunks (here:
defaults `false` / `none`).  The caller-supplied `extra_metadata`
(default `None` in Python) is not modelled. -/
structure ChunkMeta where
  source_file : String
  document_id : String
  page_number : Nat
  element_type : String
  section_path : String
  section_header : String
  collection_type : String
  has_table : Bool := false
  table_html : Option String := none
  chunk_index : Option Nat := none
deriving DecidableEq, Repr

/-- A vector-store-ready chunk: the dicts returned by
`ComplianceChunker.chunk_processed_document`. -/
structure Chunk where
  id : String
  text : String
  metadata : ChunkMeta
deriving DecidableEq, Repr

/-- The naive character-level splitter `_simple_split` in `chunking.py`
(the in-repository fallback used when LangChain is absent; the LangChain
splitter is an external dependency and is not part of this repository's
code).  The Python `while` loop advances `start` by `size - overlap`
each iteration; we supply `text.length + 1` steps of fuel, which is
enough whenever `overlap < size` (the engine instantiates the chunker
with `size = 1000`, `overlap = 200`; for `overlap ≥ size` the Python
loop would not terminate). -/
def simpleSplitGo (chars : List Char) (size overlap : Nat) :
    Nat → Nat → List String
  | 0, _ => []
  | fuel + 1, start =>
      if start < chars.length then
        String.mk ((chars.drop start).take size) ::
          simpleSplitGo chars size overlap fuel (start + size - overlap)
      else []

/-- `_simple_split(text, size, overlap)` from `chunking.py`. -/
def simpleSplit (text : String) (size overlap : Nat) : List String :=
  if text.length ≤ size then [text]
  else simpleSplitGo text.toList size overlap (text.length + 1) 0

/-- `ComplianceChunker._update_section_path`: `Title` resets the path,
`Header` appends as a child. -/
def updateSectionPath (current : List String) (e : ProcessedElement) :
    List String :=
  if e.element_type = "Title" then [e.text] else current ++ [e.text]

/-- Running context of the chunking loop: the section-path stack and the
current header text. -/
structure ChunkCtx where
  section_path : List String
  current_header : String
deriving DecidableEq, Repr

/-- Initial context of the chunking loop (`section_path = []`,
`current_header = ""`). -/
def initChunkCtx : ChunkCtx := ⟨[], ""⟩

/-- Context update for one element of the loop body of
`chunk_processed_document`: `Title`/`Header` elements update the running
section path and current header; all other elements leave the context
unchanged. -/
def chunkStepCtx (ctx : ChunkCtx) (e : ProcessedElement) : ChunkCtx :=
  if e.element_type = "Title" ∨ e.element_type = "Header" then
    { section_path := updateSectionPath ctx.section_path e,
      current_header := e.text }
  else ctx

/-- The `base_metadata` dict built per non-header, non-empty element in
`chunk_processed_document`. -/
def baseMetadata (document_id filename collection_type : String)
    (ctx : ChunkCtx) (e : ProcessedElement) : ChunkMeta :=
  { source_file := filename
    document_id := document_id
    page_number := e.page_number
    element_type := e.element_type
    section_path :=
      if ctx.section_path ≠ [] then
        String.intercalate " > " ctx.section_path
      else ""
    section_header := ctx.current_header
    collection_type := collection_type }

/-- Chunks emitted for one element of the loop body of
`chunk_processed_document`: headers and empty/page-break elements emit
nothing; a `Table` element emits exactly one chunk; body text emits one
chunk if it fits the size budget and one chunk per sub-split otherwise. -/
def elementChunks (document_id filename collection_type : String)
    (chunk_size chunk_overlap : Nat) (ctx : ChunkCtx)
    (e : ProcessedElement) : List Chunk :=
  if e.element_type = "Title" ∨ e.element_type = "Header" then []
  else if e.element_type = "PageBreak" ∨ pyStrip e.text = "" then []
  else
    let base := baseMetadata document_id filename collection_type ctx e
    if e.element_type = "Table" then
      let chunk_text :=
        if ctx.current_header ≠ "" then
          "[Table in section: " ++ ctx.current_header ++ "]\n" ++ e.text
        else e.text
      [{ id := document_id ++ "_tbl_" ++ e.element_id
         text := chunk_text
         metadata :=
           { base with has_table := true, table_html := some (e.html.getD "") } }]
    else
      let text_with_ctx :=
        if ctx.current_header ≠ "" then
          "[Section: " ++ ctx.current_header ++ "]\n" ++ e.text
        else e.text
      if text_with_ctx.length ≤ chunk_size then
        [{ id := document_id ++ "_" ++ e.element_id
           text := text_with_ctx
           metadata := base }]
      else
        (simpleSplit text_with_ctx chunk_size chunk_overlap).enum.map
          (fun p =>
            { id := document_id ++ "_" ++ e.element_id ++ "_c" ++ toString p.1
              text := p.2
              metadata := { base with chunk_index := some p.1 } })

/-- `ComplianceChunker.chunk_processed_document(doc, collection_type)`:
walk the elements in order, threading the section context and
accumulating the emitted chunks. -/
def chunkProcessedDocument (chunk_size chunk_overlap : Nat)
    (doc : ProcessedDocument) (collection_type : String) : List Chunk :=
  (doc.elements.foldl
    (fun acc e =>
      (chunkStepCtx acc.1 e,
       acc.2 ++
         elementChunks doc.document_id doc.filename collection_type
           chunk_size chunk_overlap acc.1 e))
    (initChunkCtx, [])).2

/-- The list of contexts in force just before each element is processed
(the scan of `chunkStepCtx` along the element list). -/
def chunkCtxs : List ProcessedElement → ChunkCtx → List ChunkCtx
  | [], _ => []
  | e :: rest, ctx => ctx :: chunkCtxs rest (chunkStepCtx ctx e)

/-! ### Phase 2 — Query Decomposition (`ComplianceEngine._generate_compliance_queries` / `_static_queries`) -/

/-- The rule-set names known to the engine: the keys of
`_FRAMEWORK_COLLECTIONS` in `compliance_engine.py`, which coincide with
the keys of the `base` dict in `_static_queries`. -/
def knownFrameworks : List String :=
  ["IndAS", "Schedule_III", "SEBI_LODR", "RBI_Norms", "ESG_BRSR",
   "Auditing_Standards", "Disclosure_Checklists"]

/-- `ComplianceEngine._static_queries(framework, doc_type)`: the
hand-curated fallback query lists (`doc_type` is accepted but never read
by the Python function). -/
def staticQueries (framework : String) (_doc_type : String) : List String :=
  if framework = "IndAS" then
    ["Presentation of financial statements required disclosures Ind AS 1",
     "Revenue recognition policies and disclosures Ind AS 115",
     "Financial instruments classification and measurement Ind AS 109",
     "Related party transactions disclosure requirements Ind AS 24",
     "Earnings per share calculation and disclosure Ind AS 33",
     "Lease accounting right of use assets Ind AS 116",
     "Employee benefits provisions disclosures Ind AS 19",
     "Impairment of assets testing requirements Ind AS 36"]
  else if framework = "Schedule_III" then
    ["Balance sheet format line items as per Schedule III",
     "Statement of profit and loss format Schedule III requirements",
     "Cash flow statement format direct or indirect method",
     "Notes to financial statements disclosure requirements",
     "Significant accounting policies disclosure",
     "General instructions for preparation of financial statements Schedule III"]
  else if framework = "SEBI_LODR" then
    ["Corporate governance compliance report SEBI LODR",
     "Related party transaction disclosure SEBI regulations",
     "Board composition independent directors requirement",
     "Audit committee composition and functions SEBI LODR",
     "Quarterly financial results submission format"]
  else if framework = "RBI_Norms" then
    ["Capital adequacy ratio disclosure RBI norms",
     "NPA classification and provisioning requirements",
     "Asset quality disclosure income recognition",
     "Liquidity coverage ratio disclosure requirements"]
  else if framework = "ESG_BRSR" then
    ["BRSR core framework essential indicators reporting",
     "Environmental performance metrics GHG emissions energy",
     "Social indicators employee wellbeing human rights",
     "Governance structure board diversity policies"]
  else if framework = "Auditing_Standards" then
    ["Independent auditor report format SA 700",
     "Key audit matters reporting SA 701",
     "Going concern assessment and reporting SA 570",
     "Emphasis of matter other matter paragraphs SA 706"]
  else if framework = "Disclosure_Checklists" then
    ["IndAS disclosure checklist mandatory items",
     "Financial statement disclosure completeness checklist",
     "Notes to accounts comprehensive disclosure requirements"]
  else ["compliance requirements " ++ framework]

/-- One entry of a parsed JSON array returned by the planner LLM: either
a JSON string or some other JSON value. -/
inductive JsonItem
  | str (s : String)
  | other
deriving DecidableEq, Repr

/-- Outcome of the planner's LLM call followed by `json.loads` (after
code-fence stripping) in `_generate_compliance_queries`:
`failure` covers a provider exception or a JSON parse error (both are
caught by the `except` clause), `array` a successfully parsed JSON
array, `nonArray` any other successfully parsed JSON value. -/
inductive PlannerResponse
  | failure
  | array (items : List JsonItem)
  | nonArray
deriving DecidableEq, Repr

/-- `ComplianceEngine._generate_compliance_queries(framework, doc_type,
section_names)`, given the outcome of the LLM round trip.  The prompt
(which consumes `doc_type` and the first 30 section names) only feeds
the external LLM, whose parsed outcome is the `resp` parameter.  A
parsed array is filtered to its string entries longer than 10
characters and returned as-is — even when empty; only an exception /
parse failure or a non-array value reaches the static fallback. -/
def generateComplianceQueries (framework doc_type : String)
    (resp : PlannerResponse) : List String :=
  match resp with
  | .array items =>
      items.filterMap (fun it =>
        match it with
        | .str q => if 10 < q.length then some q else none
        | .other => none)
  | .failure => staticQueries framework doc_type
  | .nonArray => staticQueries framework doc_type

/-! ### Phase 3 — Iterative Retrieval (`ComplianceEngine._retrieve_rules_iteratively`) -/

/-- Metadata of one vector-store hit, as read by
`_build_source_label` and `_retrieve_rules_iteratively` (`meta.get`
lookups on the Chroma metadata dict; `none` models a missing key and the
Python truthiness test also rejects `""` / `0`). -/
structure HitMeta where
  standard_name : Option String := none
  section_path : Option String := none
  section_header : Option String := none
  page_number : Option Nat := none
  source_file : Option String := none
  framework : Option String := none
deriving DecidableEq, Repr

/-- One hit returned by `VectorStoreService.query`: parallel entries of
the `ids` / `documents` / `metadatas` / `distances` arrays. -/
structure Hit where
  id : String
  text : String
  meta : HitMeta
  distance : ℚ
deriving DecidableEq, Repr

/-- Python truthiness of an optional string field (`meta.get(key)`). -/
def optTruthy (s : Option String) : Bool :=
  match s with
  | some v => v ≠ ""
  | none => false

/-- `ComplianceEngine._build_source_label(meta, framework)`. -/
def buildSourceLabel (meta : HitMeta) (framework : String) : String :=
  let parts : List String :=
    (if optTruthy meta.standard_name then [meta.standard_name.getD ""] else []) ++
    (if optTruthy meta.section_path then [meta.section_path.getD ""]
     else if optTruthy meta.section_header then [meta.section_header.getD ""]
     else []) ++
    (match meta.page_number with
     | some n => if n ≠ 0 then ["p." ++ toString n] else []
     | none => []) ++
    (if optTruthy meta.source_file then [meta.source_file.getD ""] else [])
  if parts ≠ [] then String.intercalate " | " parts else framework

/-- A retrieved rule candidate: the dicts accumulated in `all_rules` by
`_retrieve_rules_iteratively`. -/
structure RuleCand where
  rule_id : String
  rule_text : String
  rule_source : String
  framework : String
  distance : ℚ
  query : String
deriving DecidableEq, Repr

/-- The fingerprint used for deduplication:
`hashlib.md5(text[:500].encode()).hexdigest()`.  The MD5 digest itself
is an imported primitive (`hashlib`), modelled as the function parameter
`h`; the structure — hashing the first 500 characters — is kept. -/
def fingerprint (h : String → String) (text : String) : String :=
  h (pyTake text 500)

/-- Body of the inner per-hit loop of `_retrieve_rules_iteratively`:
skip empty text, skip already-seen fingerprints, otherwise record the
fingerprint and append a `RuleCand`. -/
def retrieveStep (h : String → String) (framework query : String)
    (acc : List String × List RuleCand) (hit : Hit) :
    List String × List RuleCand :=
  if hit.text = "" then acc
  else if acc.1.contains (fingerprint h hit.text) then acc
  else
    (fingerprint h hit.text :: acc.1,
     acc.2 ++
       [{ rule_id := hit.id
          rule_text := hit.text
          rule_source := buildSourceLabel hit.meta framework
          framework := hit.meta.framework.getD framework
          distance := hit.distance
          query := query }])

/-- `ComplianceEngine._retrieve_rules_iteratively(queries, framework,
collection)`.  The per-query vector search (embedding plus
`vs.query`, including the retry-without-filter path) is an external
call, modelled by the oracle `hits`: `none` means the query was skipped
(empty embedding, or both search attempts raised), `some hs` the parsed
hit list.  The `seen_hashes` set is threaded across all queries, and
the accumulated candidates are finally sorted by ascending distance
(`all_rules.sort(key=lambda r: r["distance"])`, a stable sort). -/
def retrieveRulesIteratively (h : String → String)
    (hits : String → Option (List Hit)) (queries : List String)
    (framework : String) : List RuleCand :=
  let acc :=
    queries.foldl
      (fun acc query =>
        match hits query with
        | none => acc
        | some hs => hs.foldl (retrieveStep h framework query) acc)
      ([], [])
  acc.2.mergeSort (fun a b => decide (a.distance ≤ b.distance))

/-! ### Phase 4 — Chain-of-Thought Assessment
(`ComplianceEngine._assess_single_rule_cot` and
`LLMService.assess_compliance_cot` / `_parse_json`) -/

/-- The dict produced by `LLMService.assess_compliance_cot` (via
`_parse_json` or one of its fixed fallback dicts), as read by
`_assess_single_rule_cot`.  `status = none` models a missing key;
`confidence = none` models a missing key (Python default `0.5`).  A
non-numeric `confidence` value would make `float(...)` raise, which
surfaces as the whole assessment task failing — that case is modelled
at the run level, not here. -/
structure CotResult where
  status : Option String := none
  confidence : Option ℚ := none
  evidence : String := ""
  evidence_location : String := ""
  explanation : String := ""
  recommendations : String := ""
deriving DecidableEq, Repr

/-- The five status strings that `status_map` in
`_assess_single_rule_cot` recognises. -/
def verdictStrings : List String :=
  ["COMPLIANT", "NON_COMPLIANT", "PARTIALLY_COMPLIANT", "NOT_APPLICABLE",
   "UNABLE_TO_DETERMINE"]

/-- The `status_map.get(raw_status, ComplianceStatus.UNABLE_TO_DETERMINE)`
lookup in `_assess_single_rule_cot`. -/
def statusMap (raw : String) : ComplianceStatus :=
  if raw = "COMPLIANT" then .COMPLIANT
  else if raw = "NON_COMPLIANT" then .NON_COMPLIANT
  else if raw = "PARTIALLY_COMPLIANT" then .PARTIALLY_COMPLIANT
  else if raw = "NOT_APPLICABLE" then .NOT_APPLICABLE
  else if raw = "UNABLE_TO_DETERMINE" then .UNABLE_TO_DETERMINE
  else .UNABLE_TO_DETERMINE

/-- `raw_status = (result.get("status") or
"UNABLE_TO_DETERMINE").upper().strip()` — `or` replaces both a missing
key and an empty string. -/
def rawStatusOf (r : CotResult) : String :=
  (match r.status with
   | none => "UNABLE_TO_DETERMINE"
   | some s => if s = "" then "UNABLE_TO_DETERMINE" else s) |> pyUpper |> pyStrip

/-- Tail of `ComplianceEngine._assess_single_rule_cot`: map the parsed
LLM dict onto a `ComplianceCheckResult` (status mapping, confidence
default `0.5`, clamp into `[0,1]`, round to 3 digits, field
truncations). -/
def assessSingleRuleCot (rule : RuleCand) (framework : String)
    (cot : CotResult) : ComplianceCheckResult :=
  let status := statusMap (rawStatusOf cot)
  let confidence : ℚ := max 0 (min 1 (cot.confidence.getD (1 / 2)))
  { rule_id := rule.rule_id
    rule_text := pyTake rule.rule_text 500
    rule_source := rule.rule_source
    framework := framework
    status := status
    confidence := pyRound 3 confidence
    evidence := pyTake cot.evidence 1500
    evidence_location := cot.evidence_location
    explanation := cot.explanation
    recommendations :=
      if cot.recommendations = "" then none else some cot.recommendations }

/-! ### Phase 5 — Synthesis (`ComplianceEngine.run_compliance_check`, lines 230–292) -/

/-- Number of results with the given status:
`sum(1 for r in all_results if r.status == s)`. -/
def countStatus (results : List ComplianceCheckResult)
    (s : ComplianceStatus) : Nat :=
  results.countP (fun r => decide (r.status = s))

/-- The overall score as computed at line 238 of
`compliance_engine.py`:
`(compliant + 0.5 * partial) / scorable * 100 if scorable > 0 else 0.0`. -/
def overallScore (results : List ComplianceCheckResult) : ℚ :=
  let compliant := countStatus results .COMPLIANT
  let non_compliant := countStatus results .NON_COMPLIANT
  let partialCount := countStatus results .PARTIALLY_COMPLIANT
  let scorable := compliant + non_compliant + partialCount
  if 0 < scorable then
    ((compliant : ℚ) + (1 / 2) * (partialCount : ℚ)) / (scorable : ℚ) * 100
  else 0

/-- Assembly of the final `ComplianceReport` in `run_compliance_check`
(the executive summary is an external LLM call whose outcome is the
`summary` parameter). -/
def synthesizeReport (report_id document_id document_name : String)
    (company_name fiscal_year : Option String) (frameworks : List String)
    (all_results : List ComplianceCheckResult) (summary : String) :
    ComplianceReport :=
  { report_id := report_id
    document_id := document_id
    document_name := document_name
    company_name := company_name
    fiscal_year := fiscal_year
    frameworks_tested := frameworks
    total_rules_checked := all_results.length
    compliant_count := countStatus all_results .COMPLIANT
    non_compliant_count := countStatus all_results .NON_COMPLIANT
    partially_compliant_count := countStatus all_results .PARTIALLY_COMPLIANT
    not_applicable_count := countStatus all_results .NOT_APPLICABLE
    unable_to_determine_count := countStatus all_results .UNABLE_TO_DETERMINE
    overall_compliance_score := pyRound 2 (overallScore all_results)
    results := all_results
    summary := summary }

/-- `ComplianceEngine._empty_report`: the report returned when no text
sections could be extracted. -/
def emptyReport (report_id document_id document_name : String)
    (company_name fiscal_year : Option String)
    (frameworks : List String) : ComplianceReport :=
  { report_id := report_id
    document_id := document_id
    document_name := document_name
    company_name := company_name
    fiscal_year := fiscal_year
    frameworks_tested := frameworks
    total_rules_checked := 0
    compliant_count := 0
    non_compliant_count := 0
    partially_compliant_count := 0
    not_applicable_count := 0
    unable_to_determine_count := 0
    overall_compliance_score := 0
    results := []
    summary := "No document content could be extracted for compliance analysis." }

/-! ### Phase 1 — Document Decomposition
(`ComplianceEngine._load_document` / `_decompose_document` /
`_collect_tables` / `_detect_document_type`) -/

/-- One entry of the stored document's `elements` array, as read by
`_decompose_document` (`elem.get` lookups with defaults `""` / `0`). -/
structure DocElem where
  element_type : String := ""
  text : String := ""
  page_number : Nat := 0
deriving DecidableEq, Repr

/-- One entry of the stored document's `tables` array, as read by
`_decompose_document` and `_collect_tables`. -/
structure StoredTable where
  plain_text : String := ""
  financial_statement_type : String := ""
  html : String := ""
deriving DecidableEq, Repr

/-- The MongoDB document record, restricted to the fields
`run_compliance_check` and its Phase 1 helpers read.  `filename` is
`none` when the key is absent (`doc.get("filename", default)` picks the
default). -/
structure StoredDoc where
  filename : Option String := none
  company : Option String := none
  fiscal_year : Option String := none
  elements : List DocElem := []
  tables : List StoredTable := []
  full_text : String := ""
deriving DecidableEq, Repr

/-- One `document_chunks` record from MongoDB, as read by the second
branch of `_decompose_document`. -/
structure StoredChunk where
  text : String := ""
  element_type : String := ""
deriving DecidableEq, Repr

/-- A reconstructed text section (the dicts built by
`_decompose_document`). The `pages` key is only present on sections
built from the elements branch; sections from the other branches leave
it `[]`. -/
structure DocSection where
  name : String
  text : String
  pages : List Nat := []
deriving DecidableEq, Repr

/-- Position of the end of the `(.+?)` capture of the pattern
`\[Section:\s*(.+?)\]`: the least index `i ≥ 1` such that `l[i] = ']'`
and no newline occurs among `l[0..i)` (the non-greedy `.+?` matches the
shortest non-empty newline-free run followed by `]`). -/
def sectionNameEnd (l : List Char) : Option Nat :=
  (List.range l.length).find?
    (fun i =>
      decide (1 ≤ i) && ((l.drop i).head? == some ']') &&
        !((l.take i).contains '\n'))

/-- Match of the anchored regex `^\[Section:\s*(.+?)\]\s*\n?` from the
second branch of `_decompose_document`, returning the raw capture group
and the text after the closing bracket.  (The trailing `\s*\n?` of the
pattern is irrelevant here because the caller strips `text[m.end():]`,
so stripping everything after `]` is equivalent.)  The greedy `\s*`
after the colon backtracks from the longest whitespace run to the
shortest until the capture can complete. -/
def sectionMatch (text : String) : Option (String × String) :=
  if pyStartsWith text "[Section:" then
    let s := (pyDrop text 9).toList
    let wmax := (s.takeWhile isPyWs).length
    match
      (List.range (wmax + 1)).reverse.findSome?
        (fun p => (sectionNameEnd (s.drop p)).map (fun i => (p, i))) with
    | some (p, i) =>
        some (String.mk ((s.drop p).take i), String.mk ((s.drop p).drop (i + 1)))
    | none => none
  else none

/-- Accumulator of the elements branch of `_decompose_document`: the
flushed sections plus the current section's name, text parts and page
set (the page set is modelled as the insertion list, deduplicated and
sorted at flush time just as `sorted(set)` would). -/
structure SecAcc where
  sections : List DocSection
  name : String
  parts : List String
  pages : List Nat
deriving DecidableEq, Repr

/-- Flush the current section if it has any text parts
(`"\n\n".join(parts)`, `sorted(pages)`). -/
def flushSec (acc : SecAcc) : List DocSection :=
  if acc.parts ≠ [] then
    acc.sections ++
      [{ name := acc.name
         text := String.intercalate "\n\n" acc.parts
         pages := acc.pages.dedup.mergeSort (fun a b => decide (a ≤ b)) }]
  else acc.sections

/-- Loop body of the elements branch of `_decompose_document`. -/
def elemStep (acc : SecAcc) (elem : DocElem) : SecAcc :=
  if (elem.element_type = "Title" ∨ elem.element_type = "Header") ∧
      pyStrip elem.text ≠ "" then
    { sections := flushSec acc, name := pyStrip elem.text, parts := [], pages := [] }
  else if pyStrip elem.text ≠ "" then
    { acc with
      parts := acc.parts ++ [elem.text]
      pages :=
        if elem.page_number ≠ 0 then acc.pages ++ [elem.page_number]
        else acc.pages }
  else acc

/-- First branch of `_decompose_document`: rebuild sections from the
stored `elements` array. -/
def sectionsFromElements (elements : List DocElem) : List DocSection :=
  flushSec (elements.foldl elemStep ⟨[], "(Preamble)", [], []⟩)

/-- Loop body of the chunks branch of `_decompose_document`: group the
cleaned chunk texts under their `[Section: ...]` name (or `"General"`),
preserving first-seen section order. -/
def chunkGroupStep (groups : List (String × List String))
    (chunk : StoredChunk) : List (String × List String) :=
  if pyStrip chunk.text = "" then groups
  else if (chunk.element_type = "Footer" ∨ chunk.element_type = "Image") ∧
      (pyStrip chunk.text).length < 20 then groups
  else
    let sc :=
      match sectionMatch chunk.text with
      | some nr => (pyStrip nr.1, pyStrip nr.2)
      | none => ("General", pyStrip chunk.text)
    if sc.2 = "" then groups
    else if (groups.map Prod.fst).contains sc.1 then
      groups.map (fun g => if g.1 = sc.1 then (g.1, g.2 ++ [sc.2]) else g)
    else groups ++ [(sc.1, [sc.2])]

/-- Second branch of `_decompose_document`: rebuild sections from the
`document_chunks` records (the MongoDB `find_many` result is the
`chunks` parameter). -/
def sectionsFromChunks (chunks : List StoredChunk) : List DocSection :=
  (chunks.foldl chunkGroupStep []).filterMap
    (fun g =>
      if g.2 ≠ [] then
        some { name := g.1, text := String.intercalate "\n\n" g.2 }
      else none)

/-- Third branch of `_decompose_document`: a single section built from
the tables' plain text. -/
def sectionsFromTables (tables : List StoredTable) : List DocSection :=
  let table_parts :=
    tables.filterMap (fun t =>
      if t.plain_text ≠ "" then
        some
          ((if t.financial_statement_type ≠ "" then
              "[" ++ t.financial_statement_type ++ "]"
            else "[Table]") ++ "\n" ++ t.plain_text)
      else none)
  if table_parts ≠ [] then
    [{ name := "Tables and Financial Data",
       text := String.intercalate "\n\n" table_parts }]
  else []

/-- `ComplianceEngine._decompose_document(doc)`: elements branch, then
chunks branch, then tables branch, then `full_text`, returning the
first branch that yields any section. -/
def decomposeDocument (doc : StoredDoc) (mongoChunks : List StoredChunk) :
    List DocSection :=
  let s1 := if doc.elements ≠ [] then sectionsFromElements doc.elements else []
  if s1 ≠ [] then s1
  else
    let s2 := if mongoChunks ≠ [] then sectionsFromChunks mongoChunks else []
    if s2 ≠ [] then s2
    else
      let s3 := if doc.tables ≠ [] then sectionsFromTables doc.tables else []
      if s3 ≠ [] then s3
      else if doc.full_text ≠ "" then
        [{ name := "Full Document", text := doc.full_text }]
      else []

/-- `ComplianceEngine._collect_tables(doc)`. -/
def collectTables (doc : StoredDoc) : List StoredTable :=
  doc.tables.filter (fun t => t.html ≠ "" || t.plain_text ≠ "")

/-- Python's substring test `sub in s`. -/
def strContains (s sub : String) : Bool :=
  s.toList.tails.any (fun t => sub.toList.isPrefixOf t)

/-- `ComplianceEngine._detect_document_type(doc, sections)`. -/
def detectDocumentType (doc : StoredDoc) (sections : List DocSection) :
    String :=
  let filename := pyLower (doc.filename.getD "")
  let all_text :=
    pyLower (String.intercalate " " (sections.map (fun s => s.name)))
  if strContains filename "annual report" ||
      strContains all_text "annual report" then "annual_report"
  else if strContains filename "audit" || strContains all_text "auditor" then
    "audit_report"
  else if strContains all_text "balance sheet" ||
      strContains all_text "profit and loss" ||
      strContains all_text "cash flow" then "financial_statement"
  else if strContains filename "brsr" ||
      strContains all_text "sustainability" then "esg_report"
  else "financial_document"

/-! ### The run (`ComplianceEngine.run_compliance_check`) -/

/-- Engine constant `_MAX_RULES_PER_FRAMEWORK = 15`. -/
def maxRulesPerFramework : Nat := 15

/-- Per-framework outcomes of the external calls made during one run:
the `get_collection_stats` count (`none` = the stats call raised, which
the engine treats like an empty collection and skips the framework),
the planner LLM outcome, the per-query vector-search oracle, and the
per-rule assessment outcome (`none` = the gathered task ended in an
exception, so no result is appended; `some cot` = the parsed dict
handed to `_assess_single_rule_cot`). -/
structure FrameworkEnv where
  statsCount : Option Nat
  planner : PlannerResponse
  hits : String → Option (List Hit)
  cot : RuleCand → Option CotResult

/-- All external collaborators of one `run_compliance_check` call:
the fresh `uuid4` report id, the MongoDB document lookup, the
`document_chunks` records, the `hashlib.md5` fingerprint digest, the
per-framework call outcomes, and the executive-summary LLM output. -/
structure RunEnv where
  report_id : String
  document : Option StoredDoc
  docChunks : List StoredChunk
  md5Hex : String → String
  fw : String → FrameworkEnv
  summary : String

/-- The `frameworks = frameworks or ["IndAS", "Schedule_III"]` default
(an empty list is falsy in Python, so it is replaced too). -/
def effectiveFrameworks (frameworks : List String) : List String :=
  if frameworks = [] then ["IndAS", "Schedule_III"] else frameworks

/-- The `doc_text_sections` value after the optional `sections` filter
in `run_compliance_check` (a `None` or empty filter list leaves the
decomposition untouched; otherwise sections are kept when their
lower-cased name is in the lower-cased filter set). -/
def filteredSections (doc : StoredDoc) (mongoChunks : List StoredChunk)
    (sections : Option (List String)) : List DocSection :=
  let base := decomposeDocument doc mongoChunks
  match sections with
  | some secs =>
      if secs ≠ [] then
        base.filter (fun s => (secs.map pyLower).contains (pyLower s.name))
      else base
  | none => base

/-- The results contributed by one framework in the per-framework loop
of `run_compliance_check`: skip the framework when the collection stats
call raises or reports an empty collection; otherwise plan queries,
retrieve and deduplicate rules, keep the first
`_MAX_RULES_PER_FRAMEWORK` candidates, and gather the per-rule
assessments, dropping tasks that ended in an exception. -/
def frameworkResults (env : RunEnv) (framework doc_type : String) :
    List ComplianceCheckResult :=
  let fenv := env.fw framework
  match fenv.statsCount with
  | none => []
  | some 0 => []
  | some (_ + 1) =>
      let queries := generateComplianceQueries framework doc_type fenv.planner
      let retrieved :=
        retrieveRulesIteratively env.md5Hex fenv.hits queries framework
      if retrieved = [] then []
      else
        (retrieved.take maxRulesPerFramework).filterMap
          (fun rule => (fenv.cot rule).map (assessSingleRuleCot rule framework))

/-- `ComplianceEngine.run_compliance_check(document_id, frameworks,
sections)`: a missing document raises `ValueError` (modelled as
`Except.error`); an empty section decomposition returns
`_empty_report`; otherwise the per-framework results are accumulated in
framework order and synthesised into the final report. -/
def runComplianceCheck (env : RunEnv) (document_id : String)
    (frameworks : List String) (sections : Option (List String)) :
    Except String ComplianceReport :=
  match env.document with
  | none => Except.error ("Document not found: " ++ document_id)
  | some doc =>
      let fws := effectiveFrameworks frameworks
      let document_name := doc.filename.getD "unknown"
      let secs := filteredSections doc env.docChunks sections
      if secs = [] then
        Except.ok
          (emptyReport env.report_id document_id document_name doc.company
            doc.fiscal_year fws)
      else
        let doc_type := detectDocumentType doc (decomposeDocument doc env.docChunks)
        let all_results :=
          (fws.map (fun framework => frameworkResults env framework doc_type)).flatten
        Except.ok
          (synthesizeReport env.report_id document_id document_name
            doc.company doc.fiscal_year fws all_results env.summary)

/-! ## Shared helper lemmas and concrete fixtures -/

/-- A sample assessment result used in witness instantiations. -/
def sampleResult (s : ComplianceStatus) : ComplianceCheckResult :=
  { rule_id := "r1"
    rule_text := "rule text"
    rule_source := "src"
    framework := "IndAS"
    status := s
    confidence := 1
    evidence := ""
    evidence_location := ""
    explanation := ""
    recommendations := none }

/-- A sample rule candidate used in witness instantiations. -/
def sampleRule : RuleCand :=
  { rule_id := "r1"
    rule_text := "rule text"
    rule_source := "src"
    framework := "IndAS"
    distance := 1
    query := "q" }

/-- Lower bound of the banker's rounding: it never goes below the
floor. -/
theorem le_pyRoundInt (y : ℚ) : ⌊y⌋ ≤ pyRoundInt y := by
  unfold pyRoundInt
  split_ifs <;> omega

/-- The banker's rounding of a value in `[0, B]` (with `B` an integer)
stays in `[0, B]`. -/
theorem pyRoundInt_bounds (y : ℚ) (B : ℤ) (h0 : 0 ≤ y) (h1 : y ≤ (B : ℚ)) :
    0 ≤ pyRoundInt y ∧ pyRoundInt y ≤ B := by
  have hf0 : 0 ≤ ⌊y⌋ := Int.floor_nonneg.mpr h0
  have hfB : ⌊y⌋ ≤ B := by
    have := Int.floor_le_floor h1
    simpa using this
  constructor
  · have := le_pyRoundInt y
    omega
  · unfold pyRoundInt
    split_ifs with hlt hgt hev
    · exact hfB
    · have hfy : (⌊y⌋ : ℚ) < y := by
        have : (0 : ℚ) < y - ⌊y⌋ := lt_trans (by norm_num) hgt
        linarith
      have : (⌊y⌋ : ℚ) < (B : ℚ) := lt_of_lt_of_le hfy h1
      have : ⌊y⌋ < B := by exact_mod_cast this
      omega
    · exact hfB
    · have hfy : (⌊y⌋ : ℚ) < y := by
        have hhalf : y - ⌊y⌋ = 1 / 2 := le_antisymm (not_lt.mp hgt) (not_lt.mp hlt)
        have : (0 : ℚ) < y - ⌊y⌋ := by rw [hhalf]; norm_num
        linarith
      have : (⌊y⌋ : ℚ) < (B : ℚ) := lt_of_lt_of_le hfy h1
      have : ⌊y⌋ < B := by exact_mod_cast this
      omega

/-- `pyRound k` maps `[0, 1]` into `[0, 1]`. -/
theorem pyRound_mem_unit (k : Nat) (x : ℚ) (h0 : 0 ≤ x) (h1 : x ≤ 1) :
    0 ≤ pyRound k x ∧ pyRound k x ≤ 1 := by
  have hpow : (0 : ℚ) < 10 ^ k := by positivity
  have hy0 : 0 ≤ (10 ^ k : ℚ) * x := by positivity
  have hy1 : (10 ^ k : ℚ) * x ≤ (((10 : ℤ) ^ k : ℤ) : ℚ) := by
    push_cast
    calc (10 ^ k : ℚ) * x ≤ (10 ^ k : ℚ) * 1 :=
          mul_le_mul_of_nonneg_left h1 (le_of_lt hpow)
    _ = (10 ^ k : ℚ) := mul_one _
  obtain ⟨hn0, hnB⟩ := pyRoundInt_bounds _ _ hy0 hy1
  unfold pyRound
  constructor
  · exact div_nonneg (by exact_mod_cast hn0) (le_of_lt hpow)
  · rw [div_le_one hpow]
    calc ((pyRoundInt ((10 ^ k : ℚ) * x) : ℤ) : ℚ) ≤ (((10 : ℤ) ^ k : ℤ) : ℚ) := by
          exact_mod_cast hnB
    _ = (10 ^ k : ℚ) := by push_cast; ring

/-! ## Claim C1 — overall compliance score formula -/

/-- C1: for every list of assessment results, the synthesizer's overall
compliance score equals `(compliant + 0.5 * partial) / scorable * 100`
where `scorable = compliant + non_compliant + partial`, whenever
`scorable > 0`; and equals `0` whenever `scorable = 0` — in particular
a result set containing only `NOT_APPLICABLE` / `UNABLE_TO_DETERMINE`
verdicts, or an empty result set, yields score `0`, never `100`. -/
theorem overallScore_formula (results : List ComplianceCheckResult) :
    (0 < countStatus results .COMPLIANT + countStatus results .NON_COMPLIANT +
        countStatus results .PARTIALLY_COMPLIANT →
      overallScore results =
        ((countStatus results .COMPLIANT : ℚ) +
            (1 / 2) * (countStatus results .PARTIALLY_COMPLIANT : ℚ)) /
          ((countStatus results .COMPLIANT : ℚ) +
            (countStatus results .NON_COMPLIANT : ℚ) +
            (countStatus results .PARTIALLY_COMPLIANT : ℚ)) * 100) ∧
    (countStatus results .COMPLIANT + countStatus results .NON_COMPLIANT +
        countStatus results .PARTIALLY_COMPLIANT = 0 →
      overallScore results = 0) ∧
    ((∀ r ∈ results, r.status = ComplianceStatus.NOT_APPLICABLE ∨
        r.status = ComplianceStatus.UNABLE_TO_DETERMINE) →
      overallScore results = 0) ∧
    overallScore [] = 0 := by
  refine ⟨fun hpos => ?_, fun hzero => ?_, fun hna => ?_, rfl⟩
  · unfold overallScore
    rw [if_pos hpos]
    push_cast
    ring
  · unfold overallScore
    rw [if_neg (by omega)]
  · have hc : countStatus results .COMPLIANT = 0 := by
      unfold countStatus
      rw [List.countP_eq_zero]
      intro r hr
      rcases hna r hr with h | h <;> simp [h]
    have hnc : countStatus results .NON_COMPLIANT = 0 := by
      unfold countStatus
      rw [List.countP_eq_zero]
      intro r hr
      rcases hna r hr with h | h <;> simp [h]
    have hp : countStatus results .PARTIALLY_COMPLIANT = 0 := by
      unfold countStatus
      rw [List.countP_eq_zero]
      intro r hr
      rcases hna r hr with h | h <;> simp [h]
    unfold overallScore
    rw [hc, hnc, hp]
    norm_num

/-- Witness for C1: the theorem applied at concrete result lists — one
compliant plus one not-applicable result scores 100, and a purely
not-applicable result set scores 0. -/
theorem overallScore_formula_witness :
    overallScore [sampleResult .COMPLIANT, sampleResult .NOT_APPLICABLE] = 100 ∧
    overallScore [sampleResult .NOT_APPLICABLE] = 0 := by
  constructor
  · have h :=
      (overallScore_formula
        [sampleResult .COMPLIANT, sampleResult .NOT_APPLICABLE]).1 (by decide)
    have e1 : countStatus
        [sampleResult .COMPLIANT, sampleResult .NOT_APPLICABLE] .COMPLIANT = 1 := by
      decide
    have e2 : countStatus
        [sampleResult .COMPLIANT, sampleResult .NOT_APPLICABLE] .NON_COMPLIANT = 0 := by
      decide
    have e3 : countStatus
        [sampleResult .COMPLIANT, sampleResult .NOT_APPLICABLE] .PARTIALLY_COMPLIANT = 0 := by
      decide
    rw [h, e1, e2, e3]
    norm_num
  · exact (overallScore_formula [sampleResult .NOT_APPLICABLE]).2.2.1 (by decide)

/-! ## Claim C8 — static fallback query list sizes -/

/-- C8 counterexample: `Disclosure_Checklists` is a known rule-set name
whose static fallback list has only 3 queries, refuting the claimed
lower bound of 4. -/
theorem staticQueries_disclosure_counterexample :
    "Disclosure_Checklists" ∈ knownFrameworks ∧
    (staticQueries "Disclosure_Checklists" "financial_document").length = 3 := by
  constructor
  · decide
  · rfl

/-- C8 (amended): for every known rule-set name, the static fallback
query list contains between 3 and 8 queries inclusive (the claimed
lower bound of 4 fails for `Disclosure_Checklists`, which has 3). -/
theorem staticQueries_length_bounds (framework doc_type : String)
    (hk : framework ∈ knownFrameworks) :
    3 ≤ (staticQueries framework doc_type).length ∧
    (staticQueries framework doc_type).length ≤ 8 := by
  simp only [knownFrameworks, List.mem_cons, List.not_mem_nil, or_false] at hk
  rcases hk with rfl | rfl | rfl | rfl | rfl | rfl | rfl <;>
    simp [staticQueries]

/-- Witness for C8 (amended): instantiated at `IndAS`. -/
theorem staticQueries_length_bounds_witness :
    3 ≤ (staticQueries "IndAS" "annual_report").length ∧
    (staticQueries "IndAS" "annual_report").length ≤ 8 :=
  staticQueries_length_bounds "IndAS" "annual_report" (by decide)

/-! ## Claim C3 — planner fallback behaviour -/

/-- An unknown rule-set name reaches the `base.get` default: a single
generic query built from the name. -/
theorem staticQueries_unknown (framework doc_type : String)
    (h : framework ∉ knownFrameworks) :
    staticQueries framework doc_type =
      ["compliance requirements " ++ framework] := by
  simp only [knownFrameworks, List.mem_cons, List.not_mem_nil, or_false,
    not_or] at h
  obtain ⟨h1, h2, h3, h4, h5, h6, h7⟩ := h
  simp [staticQueries, h1, h2, h3, h4, h5, h6, h7]

/-- C3 counterexample: when the LLM returns a successfully parsed empty
JSON array, `_generate_compliance_queries` returns the empty list, not
the static hand-curated list — the claimed fallback on "an empty
returned array" does not happen. -/
theorem planner_empty_array_counterexample :
    generateComplianceQueries "IndAS" "annual_report"
        (PlannerResponse.array []) = [] ∧
    generateComplianceQueries "IndAS" "annual_report"
        (PlannerResponse.array []) ≠
      staticQueries "IndAS" "annual_report" := by
  constructor
  · rfl
  · intro h
    have := congrArg List.length h
    simp [generateComplianceQueries, staticQueries] at this

/-- C3 (amended): a provider exception or a JSON parse failure, or a
successfully parsed non-array value, makes the planner return the
static hand-curated query list for the rule-set name; for a rule-set
name not among the known ones that fallback is a single generic query
built from the name.  (A successfully parsed array — even an empty one,
or one whose entries are all filtered out — is returned as-is after
filtering, with no fallback.) -/
theorem planner_fallback_spec (framework doc_type : String)
    (resp : PlannerResponse)
    (hfail : resp = PlannerResponse.failure ∨ resp = PlannerResponse.nonArray) :
    generateComplianceQueries framework doc_type resp =
      staticQueries framework doc_type ∧
    (framework ∉ knownFrameworks →
      generateComplianceQueries framework doc_type resp =
        ["compliance requirements " ++ framework]) := by
  have hstat : generateComplianceQueries framework doc_type resp =
      staticQueries framework doc_type := by
    rcases hfail with rfl | rfl <;> rfl
  exact ⟨hstat, fun hunk => hstat.trans (staticQueries_unknown framework doc_type hunk)⟩

/-- Witness for C3 (amended): instantiated at the unknown rule-set name
`SOX` with a failed LLM call. -/
theorem planner_fallback_spec_witness :
    generateComplianceQueries "SOX" "annual_report" PlannerResponse.failure =
      ["compliance requirements " ++ "SOX"] :=
  (planner_fallback_spec "SOX" "annual_report" PlannerResponse.failure
    (Or.inl rfl)).2 (by decide)

/-! ## Claim C6 — verdict mapping and confidence clamping -/

/-- C6 counterexample: a successfully parsed assessment whose status
string is not one of the five verdict values but whose confidence is
`0.9` yields verdict `UNABLE_TO_DETERMINE` with confidence `0.9`, not
`0` — the parsed confidence is kept (only clamped), refuting the
claimed forcing of confidence to 0. -/
theorem assess_unknown_status_counterexample :
    rawStatusOf { status := some "MAYBE", confidence := some (9 / 10) } ∉
        verdictStrings ∧
    (assessSingleRuleCot sampleRule "IndAS"
        { status := some "MAYBE", confidence := some (9 / 10) }).status =
      ComplianceStatus.UNABLE_TO_DETERMINE ∧
    (assessSingleRuleCot sampleRule "IndAS"
        { status := some "MAYBE", confidence := some (9 / 10) }).confidence =
      9 / 10 := by
  refine ⟨by decide, rfl, ?_⟩
  simp only [assessSingleRuleCot, Option.getD_some]
  have hm : max 0 (min 1 ((9 : ℚ) / 10)) = 9 / 10 := by norm_num
  rw [hm]
  unfold pyRound pyRoundInt
  norm_num

/-- C6 (amended): when the raw status string produced by the provider
parse is not one of the five verdict values, the resulting assessment
has verdict `UNABLE_TO_DETERMINE` — but its confidence is the parsed
confidence (default `0.5`), clamped, not forced to `0` (a parse
*failure* gets confidence `0` only because `_parse_json`'s fallback
dict carries both `UNABLE_TO_DETERMINE` and `0.0`); and in every case
the resulting confidence lies in `[0, 1]`. -/
theorem assess_status_confidence_spec (rule : RuleCand) (framework : String)
    (cot : CotResult) :
    (rawStatusOf cot ∉ verdictStrings →
      (assessSingleRuleCot rule framework cot).status =
        ComplianceStatus.UNABLE_TO_DETERMINE) ∧
    0 ≤ (assessSingleRuleCot rule framework cot).confidence ∧
    (assessSingleRuleCot rule framework cot).confidence ≤ 1 := by
  refine ⟨fun hraw => ?_, ?_, ?_⟩
  · simp only [verdictStrings, List.mem_cons, List.not_mem_nil, or_false,
      not_or] at hraw
    obtain ⟨h1, h2, h3, h4, h5⟩ := hraw
    simp [assessSingleRuleCot, statusMap, h1, h2, h3, h4, h5]
  · have h0 : (0 : ℚ) ≤ max 0 (min 1 (cot.confidence.getD (1 / 2))) :=
      le_max_left 0 _
    have h1 : max 0 (min 1 (cot.confidence.getD (1 / 2))) ≤ 1 :=
      max_le (by norm_num) (min_le_left 1 _)
    exact (pyRound_mem_unit 3 _ h0 h1).1
  · have h0 : (0 : ℚ) ≤ max 0 (min 1 (cot.confidence.getD (1 / 2))) :=
      le_max_left 0 _
    have h1 : max 0 (min 1 (cot.confidence.getD (1 / 2))) ≤ 1 :=
      max_le (by norm_num) (min_le_left 1 _)
    exact (pyRound_mem_unit 3 _ h0 h1).2

/-- Witness for C6 (amended): instantiated at a parsed dict with an
out-of-range confidence `7/2` and garbage status. -/
theorem assess_status_confidence_spec_witness :
    (assessSingleRuleCot sampleRule "IndAS"
        { status := some "bogus", confidence := some (7 / 2) }).status =
      ComplianceStatus.UNABLE_TO_DETERMINE ∧
    (assessSingleRuleCot sampleRule "IndAS"
        { status := some "bogus", confidence := some (7 / 2) }).confidence ≤ 1 :=
  ⟨(assess_status_confidence_spec sampleRule "IndAS"
      { status := some "bogus", confidence := some (7 / 2) }).1 (by decide),
   (assess_status_confidence_spec sampleRule "IndAS"
      { status := some "bogus", confidence := some (7 / 2) }).2.2⟩

/-! ## Claim C2 — retrieval deduplication and ordering -/

/-- Invariant of the retrieval accumulator `(seen_hashes, all_rules)`:
every accumulated candidate's fingerprint is in the seen set, the
accumulated candidates have pairwise distinct fingerprints, and none of
them has empty text. -/
structure RetrievalInv (h : String → String)
    (acc : List String × List RuleCand) : Prop where
  mem_seen : ∀ c ∈ acc.2, fingerprint h c.rule_text ∈ acc.1
  distinct : acc.2.Pairwise
    (fun a b => fingerprint h a.rule_text ≠ fingerprint h b.rule_text)
  nonempty_text : ∀ c ∈ acc.2, c.rule_text ≠ ""

/-- One step of the per-hit loop preserves the retrieval invariant. -/
theorem retrieveStep_inv (h : String → String) (framework query : String)
    (acc : List String × List RuleCand) (hit : Hit)
    (hinv : RetrievalInv h acc) :
    RetrievalInv h (retrieveStep h framework query acc hit) := by
  unfold retrieveStep
  split_ifs with hempty hseen
  · exact hinv
  · exact hinv
  · have hnotmem : fingerprint h hit.text ∉ acc.1 := by
      intro hmem
      exact hseen (by simpa [List.contains, List.elem_iff] using hmem)
    constructor
    · intro c hc
      rcases List.mem_append.mp hc with hc | hc
      · exact List.mem_cons_of_mem _ (hinv.mem_seen c hc)
      · rcases List.mem_singleton.mp hc with rfl
        exact List.mem_cons_self _ _
    · rw [List.pairwise_append]
      refine ⟨hinv.distinct, List.pairwise_singleton _ _, ?_⟩
      intro a ha b hb
      rcases List.mem_singleton.mp hb with rfl
      intro heq
      exact hnotmem (heq ▸ hinv.mem_seen a ha)
    · intro c hc
      rcases List.mem_append.mp hc with hc | hc
      · exact hinv.nonempty_text c hc
      · rcases List.mem_singleton.mp hc with rfl
        exact hempty

/-- The per-hit loop preserves the retrieval invariant. -/
theorem foldl_retrieveStep_inv (h : String → String)
    (framework query : String) (hs : List Hit)
    (acc : List String × List RuleCand) (hinv : RetrievalInv h acc) :
    RetrievalInv h (hs.foldl (retrieveStep h framework query) acc) := by
  induction hs generalizing acc with
  | nil => exact hinv
  | cons hd tl ih => exact ih _ (retrieveStep_inv h framework query acc hd hinv)

/-- The per-query loop (threading the shared seen-set across queries)
preserves the retrieval invariant. -/
theorem foldl_queries_inv (h : String → String)
    (hits : String → Option (List Hit)) (framework : String)
    (queries : List String) (acc : List String × List RuleCand)
    (hinv : RetrievalInv h acc) :
    RetrievalInv h
      (queries.foldl
        (fun acc query =>
          match hits query with
          | none => acc
          | some hs => hs.foldl (retrieveStep h framework query) acc)
        acc) := by
  induction queries generalizing acc with
  | nil => exact hinv
  | cons q rest ih =>
      apply ih
      cases hq : hits q with
      | none => simpa [hq] using hinv
      | some hs => simpa [hq] using foldl_retrieveStep_inv h framework q hs acc hinv

/-- C2: for every retrieval call (any fingerprint digest, any vector
search outcome, any query list), the returned rule-candidate list has at
most one candidate per fingerprint — the dedup set being shared across
all queries of the call —, is sorted by ascending similarity distance,
and contains no candidate with empty text. -/
theorem retrieveRules_spec (h : String → String)
    (hits : String → Option (List Hit)) (queries : List String)
    (framework : String) :
    (retrieveRulesIteratively h hits queries framework).Pairwise
      (fun a b => fingerprint h a.rule_text ≠ fingerprint h b.rule_text) ∧
    (retrieveRulesIteratively h hits queries framework).Sorted
      (fun a b => a.distance ≤ b.distance) ∧
    ∀ c ∈ retrieveRulesIteratively h hits queries framework,
      c.rule_text ≠ "" := by
  have hinv0 : RetrievalInv h (([], []) : List String × List RuleCand) := by
    refine ⟨?_, List.Pairwise.nil, ?_⟩ <;> intro c hc <;> cases hc
  have hinv := foldl_queries_inv h hits framework queries ([], []) hinv0
  unfold retrieveRulesIteratively
  set acc :=
    queries.foldl
      (fun acc query =>
        match hits query with
        | none => acc
        | some hs => hs.foldl (retrieveStep h framework query) acc)
      (([], []) : List String × List RuleCand) with hacc
  have hperm :
      (acc.2.mergeSort (fun a b => decide (a.distance ≤ b.distance))).Perm
        acc.2 :=
    List.mergeSort_perm acc.2 _
  refine ⟨?_, ?_, ?_⟩
  · exact
      (List.Perm.pairwise_iff (fun hxy => hxy.symm) hperm).mpr hinv.distinct
  · have hs :=
      @List.sorted_mergeSort RuleCand
        (fun a b : RuleCand => decide (a.distance ≤ b.distance))
        (fun a b c hab hbc => by
          simp only [decide_eq_true_eq] at hab hbc ⊢
          exact le_trans hab hbc)
        (fun a b => by
          simp only [Bool.or_eq_true, decide_eq_true_eq]
          exact le_total a.distance b.distance)
        acc.2
    exact hs.imp (fun hab => by simpa using hab)
  · intro c hc
    exact hinv.nonempty_text c (hperm.mem_iff.mp hc)

/-- Concrete vector-search outcome used in witness instantiations: two
hits share the same 500-character prefix, one hit has empty text. -/
def sampleHits : String → Option (List Hit) := fun _ =>
  some
    [{ id := "i1", text := "texta", meta := {}, distance := 3 },
     { id := "i2", text := "textb", meta := {}, distance := 1 },
     { id := "i3", text := "texta", meta := {}, distance := 2 },
     { id := "i4", text := "", meta := {}, distance := 0 }]

/-- Witness for C2: the theorem applied at a concrete retrieval call. -/
theorem retrieveRules_spec_witness :
    (retrieveRulesIteratively id sampleHits ["q1", "q2"] "IndAS").Sorted
      (fun a b => a.distance ≤ b.distance) :=
  (retrieveRules_spec id sampleHits ["q1", "q2"] "IndAS").2.1

/-! ## Claims C4 and C5 — chunking -/

/-- Default element used with `List.getD` when indexing element lists. -/
def dummyElem : ProcessedElement :=
  { element_id := "", element_type := "", text := "", html := none,
    page_number := 0 }

/-- The chunking fold decomposes into the concatenation of the chunks
emitted per element, each under the context in force before it. -/
theorem chunk_foldl_eq (did fn ct : String) (cs co : Nat)
    (es : List ProcessedElement) (ctx : ChunkCtx) (acc : List Chunk) :
    (es.foldl
      (fun a e =>
        (chunkStepCtx a.1 e, a.2 ++ elementChunks did fn ct cs co a.1 e))
      (ctx, acc)).2 =
    acc ++
      (((chunkCtxs es ctx).zip es).map
        (fun p => elementChunks did fn ct cs co p.1 p.2)).flatten := by
  induction es generalizing ctx acc with
  | nil => simp [chunkCtxs]
  | cons e rest ih =>
      simp only [List.foldl_cons, chunkCtxs, List.zip_cons_cons, List.map_cons,
        List.flatten_cons]
      rw [ih]
      simp [List.append_assoc]

/-- `chunk_processed_document` is the concatenation of the per-element
chunk lists. -/
theorem chunkProcessedDocument_eq_flatten (cs co : Nat)
    (doc : ProcessedDocument) (ct : String) :
    chunkProcessedDocument cs co doc ct =
      (((chunkCtxs doc.elements initChunkCtx).zip doc.elements).map
        (fun p =>
          elementChunks doc.document_id doc.filename ct cs co p.1 p.2)).flatten := by
  unfold chunkProcessedDocument
  simpa using
    chunk_foldl_eq doc.document_id doc.filename ct cs co doc.elements
      initChunkCtx []

/-- A `Table` element with non-whitespace text emits exactly one chunk,
whatever the size budget: its whole text, header-prefixed when a header
is current, tagged `has_table`. -/
theorem elementChunks_table (did fn ct : String) (cs co : Nat)
    (ctx : ChunkCtx) (e : ProcessedElement)
    (ht : e.element_type = "Table") (hne : pyStrip e.text ≠ "") :
    elementChunks did fn ct cs co ctx e =
      [{ id := did ++ "_tbl_" ++ e.element_id
         text :=
           if ctx.current_header ≠ "" then
             "[Table in section: " ++ ctx.current_header ++ "]\n" ++ e.text
           else e.text
         metadata :=
           { baseMetadata did fn ct ctx e with
             has_table := true
             table_html := some (e.html.getD "") } }] := by
  unfold elementChunks
  rw [ht]
  simp [hne]

/-- Indexing the per-element chunk lists: the `i`-th list is the chunks
of the `i`-th element under the `i`-th context. -/
theorem perElement_getD (did fn ct : String) (cs co : Nat)
    (es : List ProcessedElement) (ctx : ChunkCtx) (i : Nat)
    (hi : i < es.length) :
    (((chunkCtxs es ctx).zip es).map
      (fun p => elementChunks did fn ct cs co p.1 p.2)).getD i [] =
      elementChunks did fn ct cs co ((chunkCtxs es ctx).getD i initChunkCtx)
        (es.getD i dummyElem) := by
  induction es generalizing ctx i with
  | nil => cases hi
  | cons e rest ih =>
      cases i with
      | zero => simp [chunkCtxs]
      | succ n =>
          simp only [chunkCtxs, List.zip_cons_cons, List.map_cons,
            List.getD_cons_succ]
          exact ih (chunkStepCtx ctx e) n (by simpa using hi)

/-- C4 (amended): for every document and every `Table` element in it
whose text is not pure whitespace, the chunker's output decomposes
per-element, and that table's own contribution is exactly one chunk —
its full text never split regardless of length, prefixed with the
current section header when one is in force, and tagged
`has_table = true`.  (A `Table` element whose text is empty or pure
whitespace is skipped and produces no chunk, which is why the claim's
unconditional form fails.) -/
theorem table_exactly_one_chunk (cs co : Nat) (doc : ProcessedDocument)
    (ct : String) (i : Nat) (hi : i < doc.elements.length)
    (ht : (doc.elements.getD i dummyElem).element_type = "Table")
    (hne : pyStrip (doc.elements.getD i dummyElem).text ≠ "") :
    chunkProcessedDocument cs co doc ct =
      (((chunkCtxs doc.elements initChunkCtx).zip doc.elements).map
        (fun p =>
          elementChunks doc.document_id doc.filename ct cs co p.1 p.2)).flatten ∧
    (((chunkCtxs doc.elements initChunkCtx).zip doc.elements).map
      (fun p =>
        elementChunks doc.document_id doc.filename ct cs co p.1 p.2)).getD i [] =
      [{ id := doc.document_id ++ "_tbl_" ++
            (doc.elements.getD i dummyElem).element_id
         text :=
           if ((chunkCtxs doc.elements initChunkCtx).getD i
                initChunkCtx).current_header ≠ "" then
             "[Table in section: " ++
               ((chunkCtxs doc.elements initChunkCtx).getD i
                 initChunkCtx).current_header ++ "]\n" ++
               (doc.elements.getD i dummyElem).text
           else (doc.elements.getD i dummyElem).text
         metadata :=
           { baseMetadata doc.document_id doc.filename ct
               ((chunkCtxs doc.elements initChunkCtx).getD i initChunkCtx)
               (doc.elements.getD i dummyElem) with
             has_table := true
             table_html :=
               some ((doc.elements.getD i dummyElem).html.getD "") } }] := by
  refine ⟨chunkProcessedDocument_eq_flatten cs co doc ct, ?_⟩
  rw [perElement_getD doc.document_id doc.filename ct cs co doc.elements
    initChunkCtx i hi]
  exact elementChunks_table doc.document_id doc.filename ct cs co _ _ ht hne

/-- A document whose only element is a `Table` with pure-whitespace
text. -/
def wsTableDoc : ProcessedDocument :=
  { document_id := "d1"
    filename := "f.pdf"
    elements :=
      [{ element_id := "e1", element_type := "Table", text := " ",
         html := none, page_number := 1 }] }

/-- C4 counterexample: a document containing a `Table` element (with
whitespace-only text) for which the chunker produces no chunk at all —
refuting "exactly one chunk ... regardless of the table's text
length". -/
theorem table_whitespace_counterexample :
    (wsTableDoc.elements.getD 0 dummyElem).element_type = "Table" ∧
    chunkProcessedDocument 1000 200 wsTableDoc "regulatory_frameworks" = [] := by
  exact ⟨rfl, by decide⟩

/-- A sample document with a title, a table and a narrative element. -/
def chunkDocA : ProcessedDocument :=
  { document_id := "d1"
    filename := "a.pdf"
    elements :=
      [{ element_id := "e0", element_type := "Title", text := "Notes",
         html := none, page_number := 1 },
       { element_id := "e1", element_type := "Table", text := "a|b",
         html := some "<t/>", page_number := 1 },
       { element_id := "e2", element_type := "NarrativeText", text := "hello",
         html := none, page_number := 2 }] }

/-- The same document under a different filename (used to show ids do
not depend on the filename or collection). -/
def chunkDocB : ProcessedDocument :=
  { chunkDocA with filename := "b.pdf" }

/-- Witness for C4 (amended): instantiated at `chunkDocA`, whose second
element is a table under the header `Notes`. -/
theorem table_exactly_one_chunk_witness :
    (((chunkCtxs chunkDocA.elements initChunkCtx).zip chunkDocA.elements).map
      (fun p =>
        elementChunks chunkDocA.document_id chunkDocA.filename
          "regulatory_frameworks" 1000 200 p.1 p.2)).getD 1 [] =
      [{ id := chunkDocA.document_id ++ "_tbl_" ++
            (chunkDocA.elements.getD 1 dummyElem).element_id
         text :=
           if ((chunkCtxs chunkDocA.elements initChunkCtx).getD 1
                initChunkCtx).current_header ≠ "" then
             "[Table in section: " ++
               ((chunkCtxs chunkDocA.elements initChunkCtx).getD 1
                 initChunkCtx).current_header ++ "]\n" ++
               (chunkDocA.elements.getD 1 dummyElem).text
           else (chunkDocA.elements.getD 1 dummyElem).text
         metadata :=
           { baseMetadata chunkDocA.document_id chunkDocA.filename
               "regulatory_frameworks"
               ((chunkCtxs chunkDocA.elements initChunkCtx).getD 1 initChunkCtx)
               (chunkDocA.elements.getD 1 dummyElem) with
             has_table := true
             table_html :=
               some ((chunkDocA.elements.getD 1 dummyElem).html.getD "") } }] :=
  (table_exactly_one_chunk 1000 200 chunkDocA "regulatory_frameworks" 1
    (by decide) (by decide) (by decide)).2

/-- The chunk-id sequence emitted for one element does not depend on
the filename or the collection type. -/
theorem elementChunks_map_id (did fn fn2 ct ct2 : String) (cs co : Nat)
    (ctx : ChunkCtx) (e : ProcessedElement) :
    (elementChunks did fn ct cs co ctx e).map (fun c => c.id) =
      (elementChunks did fn2 ct2 cs co ctx e).map (fun c => c.id) := by
  simp only [elementChunks]
  split_ifs <;>
    first
      | rfl
      | (rw [List.map_map, List.map_map]
         exact List.map_congr_left (fun p _ => rfl))

/-- The whole per-element id sequence does not depend on the filename
or the collection type. -/
theorem chunk_ids_eq_aux (did fn fn2 ct ct2 : String) (cs co : Nat)
    (es : List ProcessedElement) (ctx : ChunkCtx) :
    ((((chunkCtxs es ctx).zip es).map
        (fun p => elementChunks did fn ct cs co p.1 p.2)).flatten).map
      (fun c => c.id) =
    ((((chunkCtxs es ctx).zip es).map
        (fun p => elementChunks did fn2 ct2 cs co p.1 p.2)).flatten).map
      (fun c => c.id) := by
  induction es generalizing ctx with
  | nil => simp [chunkCtxs]
  | cons e rest ih =>
      simp only [chunkCtxs, List.zip_cons_cons, List.map_cons,
        List.flatten_cons, List.map_append]
      rw [elementChunks_map_id did fn fn2 ct ct2 cs co ctx e, ih]

/-- Every chunk emitted for an element carries one of the three id
shapes built from the document id, the element id and the sub-chunk
index. -/
theorem elementChunks_id_shape (did fn ct : String) (cs co : Nat)
    (ctx : ChunkCtx) (e : ProcessedElement) (c : Chunk)
    (hc : c ∈ elementChunks did fn ct cs co ctx e) :
    c.id = did ++ "_tbl_" ++ e.element_id ∨
    c.id = did ++ "_" ++ e.element_id ∨
    ∃ j : Nat, c.id = did ++ "_" ++ e.element_id ++ "_c" ++ toString j := by
  simp only [elementChunks] at hc
  split_ifs at hc
  all_goals
    first
      | (rcases List.mem_singleton.mp hc with rfl
         first
           | (left; rfl)
           | (right; left; rfl))
      | (rw [List.mem_map] at hc
         obtain ⟨p, _, rfl⟩ := hc
         right
         right
         exact ⟨p.1, by rfl⟩)
      | cases hc

/-- C5: chunk ids are a function only of the document id, the source
element id and the sub-chunk index — two documents with the same
document id and the same element list, chunked under any filenames or
collection types, yield the identical chunk-id sequence (in particular
re-chunking the same document is idempotent on ids); and every produced
chunk id has one of the three deterministic shapes
`{doc}_tbl_{elem}` / `{doc}_{elem}` / `{doc}_{elem}_c{j}`. -/
theorem chunk_ids_deterministic (cs co : Nat) (d1 d2 : ProcessedDocument)
    (ct1 ct2 : String) (hid : d1.document_id = d2.document_id)
    (hel : d1.elements = d2.elements) :
    (chunkProcessedDocument cs co d1 ct1).map (fun c => c.id) =
      (chunkProcessedDocument cs co d2 ct2).map (fun c => c.id) ∧
    ∀ c ∈ chunkProcessedDocument cs co d1 ct1, ∃ e ∈ d1.elements,
      c.id = d1.document_id ++ "_tbl_" ++ e.element_id ∨
      c.id = d1.document_id ++ "_" ++ e.element_id ∨
      ∃ j : Nat,
        c.id = d1.document_id ++ "_" ++ e.element_id ++ "_c" ++ toString j := by
  constructor
  · rw [chunkProcessedDocument_eq_flatten, chunkProcessedDocument_eq_flatten,
      hid, hel]
    exact chunk_ids_eq_aux d2.document_id d1.filename d2.filename ct1 ct2
      cs co d2.elements initChunkCtx
  · intro c hc
    rw [chunkProcessedDocument_eq_flatten, List.mem_flatten] at hc
    obtain ⟨l, hl, hcl⟩ := hc
    rw [List.mem_map] at hl
    obtain ⟨p, hp, rfl⟩ := hl
    exact ⟨p.2, (List.of_mem_zip hp).2,
      elementChunks_id_shape _ _ _ _ _ _ _ _ hcl⟩

/-- Witness for C5: the same document id and elements under two
filenames and collection types yield the identical id sequence. -/
theorem chunk_ids_deterministic_witness :
    (chunkProcessedDocument 1000 200 chunkDocA "regulatory_frameworks").map
      (fun c => c.id) =
    (chunkProcessedDocument 1000 200 chunkDocB "disclosure_checklists").map
      (fun c => c.id) :=
  (chunk_ids_deterministic 1000 200 chunkDocA chunkDocB
    "regulatory_frameworks" "disclosure_checklists" rfl rfl).1

/-! ## Claim C7 — failure behaviour of a run -/

/-- An environment whose document lookup finds nothing. -/
def missingDocEnv : RunEnv :=
  { report_id := "rid"
    document := none
    docChunks := []
    md5Hex := id
    fw := fun _ =>
      { statsCount := none
        planner := PlannerResponse.failure
        hits := fun _ => none
        cot := fun _ => none }
    summary := "s" }

/-- C7 counterexample: a run on a missing document raises
`ValueError("Document not found: ...")` (modelled as `Except.error`)
and therefore ends with no report at all — refuting the claim that
every failing run, including the document-not-found case, still yields
a `ComplianceReport`. -/
theorem run_missing_document_counterexample :
    runComplianceCheck missingDocEnv "doc-1" ["IndAS"] none =
      Except.error "Document not found: doc-1" := by
  rfl

/-- C7 (amended): a run that fails because zero text sections were
found (the decomposition is empty, or the section filter removed
everything) still yields a `ComplianceReport` with zero counts, zero
score, no results and an explanatory summary; a run on a missing
document, by contrast, propagates an error and yields no report. -/
theorem run_failure_report_spec (env : RunEnv) (document_id : String)
    (frameworks : List String) (sections : Option (List String)) :
    (env.document = none →
      runComplianceCheck env document_id frameworks sections =
        Except.error ("Document not found: " ++ document_id)) ∧
    (∀ doc, env.document = some doc →
      filteredSections doc env.docChunks sections = [] →
      runComplianceCheck env document_id frameworks sections =
        Except.ok
          (emptyReport env.report_id document_id (doc.filename.getD "unknown")
            doc.company doc.fiscal_year (effectiveFrameworks frameworks)) ∧
      (emptyReport env.report_id document_id (doc.filename.getD "unknown")
          doc.company doc.fiscal_year
          (effectiveFrameworks frameworks)).total_rules_checked = 0 ∧
      (emptyReport env.report_id document_id (doc.filename.getD "unknown")
          doc.company doc.fiscal_year
          (effectiveFrameworks frameworks)).compliant_count = 0 ∧
      (emptyReport env.report_id document_id (doc.filename.getD "unknown")
          doc.company doc.fiscal_year
          (effectiveFrameworks frameworks)).non_compliant_count = 0 ∧
      (emptyReport env.report_id document_id (doc.filename.getD "unknown")
          doc.company doc.fiscal_year
          (effectiveFrameworks frameworks)).partially_compliant_count = 0 ∧
      (emptyReport env.report_id document_id (doc.filename.getD "unknown")
          doc.company doc.fiscal_year
          (effectiveFrameworks frameworks)).not_applicable_count = 0 ∧
      (emptyReport env.report_id document_id (doc.filename.getD "unknown")
          doc.company doc.fiscal_year
          (effectiveFrameworks frameworks)).unable_to_determine_count = 0 ∧
      (emptyReport env.report_id document_id (doc.filename.getD "unknown")
          doc.company doc.fiscal_year
          (effectiveFrameworks frameworks)).overall_compliance_score = 0 ∧
      (emptyReport env.report_id document_id (doc.filename.getD "unknown")
          doc.company doc.fiscal_year
          (effectiveFrameworks frameworks)).results = [] ∧
      (emptyReport env.report_id document_id (doc.filename.getD "unknown")
          doc.company doc.fiscal_year
          (effectiveFrameworks frameworks)).summary =
        "No document content could be extracted for compliance analysis.") := by
  constructor
  · intro hnone
    unfold runComplianceCheck
    rw [hnone]
  · intro doc hdoc hsec
    refine ⟨?_, rfl, rfl, rfl, rfl, rfl, rfl, rfl, rfl, rfl⟩
    unfold runComplianceCheck
    rw [hdoc]
    simp only [hsec, if_pos]

/-- An environment whose stored document is entirely empty (no
elements, chunks, tables or full text). -/
def emptyDocEnv : RunEnv :=
  { report_id := "rid"
    document := some {}
    docChunks := []
    md5Hex := id
    fw := fun _ =>
      { statsCount := none
        planner := PlannerResponse.failure
        hits := fun _ => none
        cot := fun _ => none }
    summary := "s" }

/-- Witness for C7 (amended): a run on an empty stored document yields
the zero-count empty report. -/
theorem run_failure_report_spec_witness :
    runComplianceCheck emptyDocEnv "doc-1" ["IndAS"] none =
      Except.ok (emptyReport "rid" "doc-1" "unknown" none none ["IndAS"]) :=
  ((run_failure_report_spec emptyDocEnv "doc-1" ["IndAS"] none).2 {} rfl rfl).1

/-! ## Claim C10 — at most 15 rules per framework -/

/-- Each framework contributes at most `_MAX_RULES_PER_FRAMEWORK = 15`
assessment results: the deduplicated, distance-sorted candidates are
truncated with `[:_MAX_RULES_PER_FRAMEWORK]` before assessment. -/
theorem frameworkResults_length_le (env : RunEnv)
    (framework doc_type : String) :
    (frameworkResults env framework doc_type).length ≤
      maxRulesPerFramework := by
  unfold frameworkResults
  cases h : (env.fw framework).statsCount with
  | none => simp [h]
  | some n =>
      cases n with
      | zero => simp [h]
      | succ m =>
          simp only [h]
          split_ifs
          · simp
          · exact le_trans (List.length_filterMap_le _ _)
              (List.length_take _ _ ▸ min_le_left _ _)

/-- The flattened concatenation of lists, each of length at most `n`,
has length at most `n` times the number of lists. -/
theorem length_flatten_le_mul {α : Type} (L : List (List α)) (n : Nat)
    (h : ∀ l ∈ L, l.length ≤ n) : L.flatten.length ≤ n * L.length := by
  induction L with
  | nil => simp
  | cons l rest ih =>
      simp only [List.flatten_cons, List.length_append, List.length_cons]
      have h1 := h l (List.mem_cons_self l rest)
      have h2 := ih (fun x hx => h x (List.mem_cons_of_mem _ hx))
      calc l.length + rest.flatten.length ≤ n + n * rest.length :=
            Nat.add_le_add h1 h2
        _ = n * (rest.length + 1) := by ring

/-- C10: every successful run produces at most
`_MAX_RULES_PER_FRAMEWORK = 15` assessment results per framework — only
the 15 lowest-distance retrieved candidates are assessed — so the
report's `total_rules_checked` is at most 15 times the number of
frameworks tested. -/
theorem run_rules_bound (env : RunEnv) (document_id : String)
    (frameworks : List String) (sections : Option (List String))
    (r : ComplianceReport)
    (hok : runComplianceCheck env document_id frameworks sections =
      Except.ok r) :
    r.total_rules_checked ≤
      maxRulesPerFramework * r.frameworks_tested.length := by
  unfold runComplianceCheck at hok
  cases hdoc : env.document with
  | none =>
      rw [hdoc] at hok
      cases hok
  | some doc =>
      rw [hdoc] at hok
      by_cases hsec : filteredSections doc env.docChunks sections = []
      · simp only [hsec, if_pos] at hok
        cases hok
        exact Nat.zero_le _
      · simp only [hsec, if_neg, if_false] at hok
        cases hok
        simp only [synthesizeReport]
        rw [List.length_flatten]
        calc (List.map List.length
                ((effectiveFrameworks frameworks).map
                  (fun framework =>
                    frameworkResults env framework
                      (detectDocumentType doc
                        (decomposeDocument doc env.docChunks))))).sum ≤
              maxRulesPerFramework *
                ((effectiveFrameworks frameworks).map
                  (fun framework =>
                    frameworkResults env framework
                      (detectDocumentType doc
                        (decomposeDocument doc env.docChunks)))).length := by
              rw [← List.length_flatten]
              apply length_flatten_le_mul
              intro l hl
              rw [List.mem_map] at hl
              obtain ⟨fw, _, rfl⟩ := hl
              exact frameworkResults_length_le env fw _
          _ = maxRulesPerFramework * (effectiveFrameworks frameworks).length := by
              rw [List.length_map]

/-- An environment with a non-empty document but an empty rule
collection, so the run succeeds with zero results. -/
def okRunEnv : RunEnv :=
  { report_id := "rid"
    document :=
      some { filename := some "f.pdf"
             elements := [{ element_type := "NarrativeText", text := "hello",
                            page_number := 1 }] }
    docChunks := []
    md5Hex := id
    fw := fun _ =>
      { statsCount := some 0
        planner := PlannerResponse.failure
        hits := fun _ => none
        cot := fun _ => none }
    summary := "sum" }

/-- Witness for C10: the theorem applied at a concrete successful run. -/
theorem run_rules_bound_witness :
    (synthesizeReport "rid" "doc-1" "f.pdf" none none ["IndAS"] []
        "sum").total_rules_checked ≤
      maxRulesPerFramework *
        (synthesizeReport "rid" "doc-1" "f.pdf" none none ["IndAS"] []
            "sum").frameworks_tested.length :=
  run_rules_bound okRunEnv "doc-1" ["IndAS"] none _ (by rfl)

end FinHub
